import Mathlib

/-
  Verification development for the WhatsApp bridge server
  (baileys-server, revision with Supabase credential persistence).

  The embedding models the global mutable connection state of the server
  process and the event handlers that mutate it:
  the connectWhatsApp entry (guard, max-attempt reset, success and throw
  paths), the connection.update handler (qr, open and close branches),
  and the HTTP handlers for logout, reconnect and clear-session.
  Each step returns the new state together with the delay of any
  setTimeout(connectWhatsApp, delay) issued during that step.
-/

namespace WhatsappBridge

/-- JS string helper: substring occurrence test, as in String.prototype.includes. -/
def charsHaveInfix (pat : List Char) : List Char → Bool
  | [] => pat.isPrefixOf []
  | c :: cs => pat.isPrefixOf (c :: cs) || charsHaveInfix pat cs

/-- JS includes(sub) on strings. -/
def jsIncludes (s sub : String) : Bool :=
  charsHaveInfix sub.toList s.toList

/-- Remove the first occurrence of pat, as in JS replace(pat, empty string)
with a string pattern, which replaces only the first occurrence. -/
def charsRemoveFirst (pat : List Char) : List Char → List Char
  | [] => []
  | c :: cs =>
    if pat.isPrefixOf (c :: cs) then (c :: cs).drop pat.length
    else c :: charsRemoveFirst pat cs

/-- JS replace(pat, empty string) on strings: removes the first occurrence only. -/
def jsRemoveFirst (s pat : String) : String :=
  String.mk (charsRemoveFirst pat.toList s.toList)

/-- JS truthiness-based or on strings: a || b where empty string is falsy. -/
def jsOr (a b : String) : String :=
  if a = "" then b else a

/-- Connection status values taken by the connectionStatus global
(disconnected, waiting_qr, connected). -/
inductive ConnStatus
  | disconnected
  | waiting_qr
  | connected
deriving DecidableEq, Repr

/-- The mutable globals of the server process.
hasSock models sock being non-null; localCreds models the AUTH_FOLDER
holding credentials on disk; durableCreds models the Supabase copy. -/
structure ServerState where
  hasSock : Bool
  qrCode : Option String
  connectionStatus : ConnStatus
  connectedPhone : Option String
  isConnecting : Bool
  reconnectAttempts : Nat
  localCreds : Bool
  durableCreds : Bool
deriving DecidableEq, Repr

/-- Initial globals at process start; the credential copies may or may not
exist already, so they are parameters. -/
def initState (l d : Bool) : ServerState :=
  { hasSock := false
    qrCode := none
    connectionStatus := .disconnected
    connectedPhone := none
    isConnecting := false
    reconnectAttempts := 0
    localCreds := l
    durableCreds := d }

/-- MAX_RECONNECT_ATTEMPTS constant. -/
def MAX_RECONNECT_ATTEMPTS : Nat := 5

/-- DisconnectReason.loggedOut from the Baileys library (value 401). -/
def loggedOutCode : Nat := 401

/-- clearSession: removes the local AUTH_FOLDER and issues a best-effort
delete of the Supabase copy; remoteOk tells whether the remote delete
succeeded (on failure the durable copy survives, the error is only logged). -/
def clearSessionFn (s : ServerState) (remoteOk : Bool) : ServerState :=
  { s with localCreds := false
           durableCreds := if remoteOk then false else s.durableCreds }

/-- The open branch computes connectedPhone from sock.user?.id?.split(colon)[0]
with a JS falsy fallback to null: a missing id or an empty first component
yields null. -/
def phoneOfUserId : Option String → Option String
  | none => none
  | some id =>
    let hd := String.mk (id.toList.takeWhile (fun c => c != ':'))
    if hd = "" then none else some hd

/-- Outcome of the awaited portion of a connect attempt: either the socket
is created and handlers registered, or the attempt throws before any event. -/
inductive COutcome
  | ok
  | threw
deriving DecidableEq, Repr

/-- Events that mutate the connection globals. Library events (qr, open,
close) fire through the connection.update handler; the others are the
connectWhatsApp invocation and the HTTP control handlers. remoteOk flags
carry whether a Supabase delete performed in that step succeeded;
renderOk tells whether QR image rendering succeeded; logoutThrew tells
whether sock.logout() threw. -/
inductive Ev
  | connect (remoteOk : Bool) (outcome : COutcome)
  | qrEvt (renderOk : Bool)
  | openEvt (userId : Option String)
  | closeEvt (statusCode : Option Nat) (remoteOk : Bool)
  | logoutReq (logoutThrew : Bool) (remoteOk : Bool)
  | reconnectReq (remoteOk : Bool)
  | clearSessionReq (remoteOk : Bool)
deriving DecidableEq, Repr

/-- Backoff formula used on the close-retry and throw-retry paths. -/
def retryDelay (attempts : Nat) : Nat :=
  min (5000 * attempts) 30000

/-- One step of the connection lifecycle controller: the new globals plus
the delay of any setTimeout(connectWhatsApp, delay) issued in that step. -/
def connStep (s : ServerState) (e : Ev) : ServerState × Option Nat :=
  match e with
  | .connect remoteOk outcome =>
    if s.isConnecting then (s, none)
    else
      let s1 := if MAX_RECONNECT_ATTEMPTS ≤ s.reconnectAttempts then
                  { clearSessionFn s remoteOk with reconnectAttempts := 0 }
                else s
      let s2 := { s1 with isConnecting := true }
      match outcome with
      | .ok =>
        ({ s2 with hasSock := true
                   localCreds := s2.localCreds || s2.durableCreds }, none)
      | .threw =>
        let n := s2.reconnectAttempts + 1
        ({ s2 with isConnecting := false
                   connectionStatus := .disconnected
                   reconnectAttempts := n }, some (retryDelay n))
  | .qrEvt renderOk =>
    if s.hasSock && renderOk then
      ({ s with qrCode := some "qr-data-url"
                connectionStatus := .waiting_qr
                reconnectAttempts := 0 }, none)
    else (s, none)
  | .openEvt userId =>
    if s.hasSock then
      ({ s with connectionStatus := .connected
                qrCode := none
                isConnecting := false
                reconnectAttempts := 0
                connectedPhone := phoneOfUserId userId }, none)
    else (s, none)
  | .closeEvt statusCode remoteOk =>
    if s.hasSock then
      let s1 := { s with connectionStatus := .disconnected
                         qrCode := none
                         connectedPhone := none
                         isConnecting := false }
      let s2 := if statusCode = some 405 ∨ statusCode = some 401 then
                  { clearSessionFn s1 remoteOk with reconnectAttempts := 0 }
                else s1
      if statusCode ≠ some loggedOutCode then
        let n := s2.reconnectAttempts + 1
        ({ s2 with reconnectAttempts := n }, some (retryDelay n))
      else (s2, none)
    else (s, none)
  | .logoutReq logoutThrew remoteOk =>
    if s.hasSock && logoutThrew then (s, none)
    else
      ({ clearSessionFn s remoteOk with
           connectionStatus := .disconnected
           qrCode := none
           connectedPhone := none
           isConnecting := false
           reconnectAttempts := 0 }, none)
  | .reconnectReq remoteOk =>
    ({ clearSessionFn s remoteOk with
         hasSock := false
         connectionStatus := .disconnected
         qrCode := none
         isConnecting := false
         reconnectAttempts := 0 }, some 1000)
  | .clearSessionReq remoteOk =>
    ({ clearSessionFn s remoteOk with
         hasSock := false
         connectionStatus := .disconnected
         qrCode := none
         connectedPhone := none
         isConnecting := false
         reconnectAttempts := 0 }, none)

/-
  Hybrid credential loader (useHybridAuthState).
  One durable-store read is performed unconditionally at entry
  (loadCredentialsFromSupabase); the restore-to-local copy happens only
  when the durable copy exists and the local folder does not; then
  useMultiFileAuthState creates the folder if it is still missing.
-/

/-- A credential set: named slots mapped to opaque payloads. -/
abbrev CredSet := List (String × String)

/-- Result of the hybrid loader: the local cache after the call, and how
many durable-store reads were performed during the call. -/
structure HybridLoadResult where
  localCache : Option CredSet
  durableReads : Nat
deriving DecidableEq, Repr

/-- useHybridAuthState: reads the Supabase copy first (always), restores
it to the local folder only when the folder is absent, then opens the
multi-file auth state (which creates the folder when still missing). -/
def useHybridAuthState (localCache durable : Option CredSet) : HybridLoadResult :=
  let supabaseState := durable
  let afterRestore :=
    match localCache, supabaseState with
    | none, some st => some st
    | some lc, _ => some lc
    | none, none => none
  { localCache := some (afterRestore.getD [])
    durableReads := 1 }

/-
  Outbound sender (sendMessage).
-/

/-- JID normalization in sendMessage: pass through when the address already
contains the s.whatsapp.net suffix, otherwise keep only the digits and
append the suffix. -/
def normalizeJid (phone : String) : String :=
  if jsIncludes phone "@s.whatsapp.net" then phone
  else String.mk (phone.toList.filter (fun c => c.isDigit)) ++ "@s.whatsapp.net"

/-- sendMessage: throws WhatsApp-not-connected when there is no socket or
the status is not connected; otherwise delegates to the library (lib is
the library call result) and propagates its error unchanged. On success
the normalized JID that was messaged is returned. No global is mutated on
any path, so the state component is returned unchanged. -/
def sendMessage (s : ServerState) (phone : String) (lib : Except String Unit) :
    ServerState × Except String String :=
  if s.hasSock = false ∨ s.connectionStatus ≠ .connected then
    (s, .error "WhatsApp not connected")
  else
    match lib with
    | .error e => (s, .error e)
    | .ok _ => (s, .ok (normalizeJid phone))

/-
  Inbound message relay (messages.upsert handler).
-/

/-- Message content, one constructor per branch of the content
classification chain; otherContent covers anything else (sticker,
location, reaction, missing message body). -/
inductive MsgContent
  | conversation (t : String)
  | extendedText (t : String)
  | audio (mimetype : Option String)
  | image (caption : Option String) (mimetype : Option String)
  | document (fileName : Option String)
  | video (caption : Option String)
  | otherContent
deriving DecidableEq, Repr

/-- An inbound message as seen by the handler. -/
structure InMsg where
  fromMe : Bool
  remoteJid : Option String
  pushName : Option String
  content : MsgContent
deriving DecidableEq, Repr

/-- Per-message external environment: the media download result (none when
the download threw or returned a falsy buffer) and the edge-function call
result (none when the fetch or json parse threw; otherwise success flag
and optional reply). -/
structure MsgEnv where
  download : Option String
  processor : Option (Bool × Option String)
deriving DecidableEq, Repr

/-- Sender extraction: remoteJid with the lid suffix stripped when present,
otherwise with the s.whatsapp.net suffix stripped; missing jid gives the
empty string. -/
def extractPhone (remoteJid : Option String) : String :=
  let phone := remoteJid.getD ""
  if jsIncludes phone "@lid" then jsRemoveFirst phone "@lid"
  else jsRemoveFirst phone "@s.whatsapp.net"

/-- Group test: remoteJid contains the g.us suffix (missing jid is falsy). -/
def isGroupJid (remoteJid : Option String) : Bool :=
  match remoteJid with
  | none => false
  | some j => jsIncludes j "@g.us"

/-- Content classification: returns (text, mediaType, mediaUrl) exactly as
the handler computes them, including the placeholder texts, the caption
and mimetype falsy fallbacks, and the inline base64 data URI built from a
successful download. -/
def classifyContent (c : MsgContent) (download : Option String) :
    String × Option String × Option String :=
  match c with
  | .conversation t => (t, none, none)
  | .extendedText t => (t, none, none)
  | .audio mt =>
    ("[🎤 Mensaje de voz]", some "audio",
     download.map (fun b => "data:" ++ jsOr (mt.getD "") "audio/ogg" ++ ";base64," ++ b))
  | .image cap mt =>
    (jsOr (cap.getD "") "[📷 Imagen]", some "image",
     download.map (fun b => "data:" ++ jsOr (mt.getD "") "image/jpeg" ++ ";base64," ++ b))
  | .document fn =>
    ("[📄 " ++ jsOr (fn.getD "") "Documento" ++ "]", some "document", none)
  | .video cap =>
    (jsOr (cap.getD "") "[🎥 Video]", some "video", none)
  | .otherContent => ("", none, none)

/-- The payload forwarded to the external processor for one message. -/
structure ForwardReq where
  phone : String
  text : String
  pushName : String
  mediaType : Option String
  mediaUrl : Option String
deriving DecidableEq, Repr

/-- What happened for one message: the forwarded payload when the processor
was called (none when the message was skipped), and the reply send that
was attempted when the processor answered success with a truthy reply. -/
structure MsgOutcome where
  forwarded : Option ForwardReq
  replyTo : Option (String × String)
deriving DecidableEq, Repr

/-- Handling of a single message of a batch. Every downstream failure
(download, processor call, reply send) is represented as a value in
MsgEnv and never escapes: the function is total. -/
def handleOne (m : InMsg) (env : MsgEnv) : MsgOutcome :=
  if m.fromMe then { forwarded := none, replyTo := none }
  else if isGroupJid m.remoteJid then { forwarded := none, replyTo := none }
  else
    let phone := extractPhone m.remoteJid
    let tmu := classifyContent m.content env.download
    if (tmu.1 ≠ "" ∨ tmu.2.1 ≠ none) ∧ phone ≠ "" then
      { forwarded := some { phone := phone
                            text := tmu.1
                            pushName := m.pushName.getD ""
                            mediaType := tmu.2.1
                            mediaUrl := tmu.2.2 }
        replyTo :=
          match env.processor with
          | some (true, some r) => if r = "" then none else some (phone, r)
          | _ => none }
    else { forwarded := none, replyTo := none }

/-- The messages.upsert handler: ignores non-notify batches, otherwise
handles every message of the batch in order. -/
def processBatch (upsertType : String) (batch : List (InMsg × MsgEnv)) :
    List MsgOutcome :=
  if upsertType ≠ "notify" then []
  else batch.map (fun p => handleOne p.1 p.2)

/-- Run a sequence of events from a state, discarding scheduled delays. -/
def runTrace (s : ServerState) : List Ev → ServerState
  | [] => s
  | e :: es => runTrace (connStep s e).1 es

/-- A state is reachable when some event trace from some initial credential
configuration produces it. -/
def Reachable (s : ServerState) : Prop :=
  ∃ l d es, runTrace (initState l d) es = s

/-- A state with a live socket and otherwise fresh globals, used by the
concrete witnesses. -/
def exampleSock : ServerState :=
  { initState false false with hasSock := true }

/-- Trace: fresh start, connect succeeds, session opens with a user id,
then a manual reconnect request arrives. -/
def c1State : ServerState :=
  runTrace (initState false false)
    [.connect true .ok, .openEvt (some "57300123:5"), .reconnectReq true]

/-- Trace: start with both credential copies present and a connect attempt
in flight with a live socket. -/
def c2State : ServerState :=
  runTrace (initState true true) [.connect true .ok]

/-- Trace: fresh start with a connect attempt accepted and still in flight. -/
def c3State : ServerState :=
  runTrace (initState false false) [.connect true .ok]

/-- Trace: three consecutive transient closes, each followed by a new
connect attempt, leaving the attempt counter at 3. -/
def c4State : ServerState :=
  runTrace (initState false false)
    [.connect true .ok, .closeEvt (some 500) true,
     .connect true .ok, .closeEvt (some 500) true,
     .connect true .ok, .closeEvt (some 500) true]

/-- C1 counterexample: the identity iff-invariant fails on the code. The
manual reconnect handler resets status, qrCode, isConnecting and the
attempt counter but never clears connectedPhone, so after
connect, open(57300123:5), reconnect the state is reachable with
connectionStatus disconnected while connectedPhone is still set. -/
theorem c1_counterexample :
    Reachable c1State ∧ c1State.connectionStatus = ConnStatus.disconnected ∧
      c1State.connectedPhone = some "57300123" :=
  ⟨⟨false, false,
    [.connect true .ok, .openEvt (some "57300123:5"), .reconnectReq true], rfl⟩,
   rfl, rfl⟩

/-- C1 (amended): close, logout and clear-session each leave the Connected
phase and clear the identity; the manual reconnect handler leaves the
phase Disconnected but retains the previous identity value; entering
Connected sets the identity to the value derived from the library user
id, which may be null when the library reports none. -/
theorem c1_amended (s : ServerState) (u : Option String) (code : Option Nat)
    (ro : Bool) (h : s.hasSock = true) :
    ((connStep s (.openEvt u)).1.connectionStatus = ConnStatus.connected
       ∧ (connStep s (.openEvt u)).1.connectedPhone = phoneOfUserId u)
  ∧ ((connStep s (.closeEvt code ro)).1.connectionStatus = ConnStatus.disconnected
       ∧ (connStep s (.closeEvt code ro)).1.connectedPhone = none)
  ∧ ((connStep s (.logoutReq false ro)).1.connectionStatus = ConnStatus.disconnected
       ∧ (connStep s (.logoutReq false ro)).1.connectedPhone = none)
  ∧ ((connStep s (.clearSessionReq ro)).1.connectionStatus = ConnStatus.disconnected
       ∧ (connStep s (.clearSessionReq ro)).1.connectedPhone = none)
  ∧ ((connStep s (.reconnectReq ro)).1.connectionStatus = ConnStatus.disconnected
       ∧ (connStep s (.reconnectReq ro)).1.connectedPhone = s.connectedPhone) := by
  refine ⟨⟨?_, ?_⟩, ⟨?_, ?_⟩, ⟨?_, ?_⟩, ⟨?_, ?_⟩, ?_, ?_⟩ <;>
    by_cases h1 : code = some 405 ∨ code = some 401 <;>
    by_cases h2 : code = some loggedOutCode <;>
    simp [connStep, clearSessionFn, loggedOutCode, h, h1, h2] <;>
    split <;> rfl

/-- C1 amended witness at a concrete state. -/
theorem c1_amended_witness :
    (connStep exampleSock (.reconnectReq true)).1.connectionStatus =
        ConnStatus.disconnected
      ∧ (connStep exampleSock (.reconnectReq true)).1.connectedPhone =
        exampleSock.connectedPhone :=
  (c1_amended exampleSock (some "1:2") (some 428) true rfl).2.2.2.2

/-- C2 counterexample: a close event with code 401 clears both credential
copies and resets the attempt counter, but schedules no retry, because
401 equals the library logged-out code, so shouldReconnect is false.
The step output (the scheduled connect delay) is none. -/
theorem c2_counterexample :
    Reachable c2State
  ∧ (connStep c2State (.closeEvt (some 401) true)).1.localCreds = false
  ∧ (connStep c2State (.closeEvt (some 401) true)).1.durableCreds = false
  ∧ (connStep c2State (.closeEvt (some 401) true)).1.reconnectAttempts = 0
  ∧ (connStep c2State (.closeEvt (some 401) true)).2 = none :=
  ⟨⟨true, true, [.connect true .ok], rfl⟩, rfl, rfl, rfl, rfl⟩

/-- C2 (amended): on a 405 close both credential copies are invalidated
(the durable one when the remote delete succeeds), the counter is reset
and then incremented to 1 by the retry path, and a retry is scheduled
after 5000 ms; on a 401 close the same invalidation and reset happen but
no retry is scheduled, since 401 is the library logged-out code. -/
theorem c2_amended (s : ServerState) (ro : Bool) (h : s.hasSock = true) :
    ((connStep s (.closeEvt (some 405) ro)).1.localCreds = false)
  ∧ (ro = true → (connStep s (.closeEvt (some 405) ro)).1.durableCreds = false)
  ∧ ((connStep s (.closeEvt (some 405) ro)).1.reconnectAttempts = 1)
  ∧ ((connStep s (.closeEvt (some 405) ro)).2 = some 5000)
  ∧ ((connStep s (.closeEvt (some 401) ro)).1.localCreds = false)
  ∧ (ro = true → (connStep s (.closeEvt (some 401) ro)).1.durableCreds = false)
  ∧ ((connStep s (.closeEvt (some 401) ro)).1.reconnectAttempts = 0)
  ∧ ((connStep s (.closeEvt (some 401) ro)).2 = none) := by
  refine ⟨?_, ?_, ?_, ?_, ?_, ?_, ?_, ?_⟩ <;>
    first
      | (intro hro; subst hro;
         simp [connStep, clearSessionFn, loggedOutCode, retryDelay, h])
      | simp [connStep, clearSessionFn, loggedOutCode, retryDelay, h]

/-- C2 amended witness at a concrete state. -/
theorem c2_amended_witness :
    (connStep exampleSock (.closeEvt (some 401) true)).2 = none :=
  (c2_amended exampleSock true rfl).2.2.2.2.2.2.2

/-- C3 counterexample: the guard is not maintained until the first terminal
event of the attempt. From a fresh start a connect attempt is accepted
and still in flight (isConnecting true, no open, close or throw yet), and
a logout request, which is none of the terminal events of the attempt,
clears isConnecting. -/
theorem c3_counterexample :
    Reachable c3State ∧ c3State.isConnecting = true ∧
      (connStep c3State (.logoutReq false true)).1.isConnecting = false :=
  ⟨⟨false, false, [.connect true .ok], rfl⟩, rfl, rfl⟩

/-- C3 (amended): a connect request while isConnecting is a complete no-op;
an accepted connect sets the guard, the throw path clears it, the qr
branch leaves it untouched, and it is cleared exactly by the open and
close events and by the manual logout, reconnect and clear-session
handlers, which may clear it before any terminal event of the attempt. -/
theorem c3_amended (s : ServerState) (ro rok : Bool) (u : Option String)
    (code : Option Nat) (h : s.hasSock = true) :
    (s.isConnecting = true → ∀ ro2 oc2, connStep s (.connect ro2 oc2) = (s, none))
  ∧ (s.isConnecting = false → (connStep s (.connect ro .ok)).1.isConnecting = true)
  ∧ (s.isConnecting = false →
        (connStep s (.connect ro .threw)).1.isConnecting = false)
  ∧ ((connStep s (.qrEvt rok)).1.isConnecting = s.isConnecting)
  ∧ ((connStep s (.openEvt u)).1.isConnecting = false)
  ∧ ((connStep s (.closeEvt code ro)).1.isConnecting = false)
  ∧ ((connStep s (.logoutReq false ro)).1.isConnecting = false)
  ∧ ((connStep s (.reconnectReq ro)).1.isConnecting = false)
  ∧ ((connStep s (.clearSessionReq ro)).1.isConnecting = false) := by
  refine ⟨?_, ?_, ?_, ?_, ?_, ?_, ?_, ?_, ?_⟩
  · intro hi ro2 oc2
    simp [connStep, hi]
  · intro hi
    by_cases hm : MAX_RECONNECT_ATTEMPTS ≤ s.reconnectAttempts <;>
      simp [connStep, clearSessionFn, hi, hm]
  · intro hi
    by_cases hm : MAX_RECONNECT_ATTEMPTS ≤ s.reconnectAttempts <;>
      simp [connStep, clearSessionFn, hi, hm]
  · cases rok <;> simp [connStep, h]
  · simp [connStep, h]
  · by_cases h1 : code = some 405 ∨ code = some 401 <;>
      by_cases h2 : code = some loggedOutCode <;>
      simp [connStep, clearSessionFn, loggedOutCode, h, h1, h2] <;>
      split <;> rfl
  · simp [connStep, clearSessionFn, h]
  · simp [connStep, clearSessionFn]
  · simp [connStep, clearSessionFn]

/-- C3 amended witness at a concrete in-flight state: a connect request is a
no-op while the guard is set. -/
theorem c3_amended_witness :
    connStep c3State (Ev.connect false COutcome.threw) = (c3State, none) :=
  (c3_amended c3State true true none none rfl).1 rfl false COutcome.threw

/-- C4 counterexample: the counter does not reset exactly on AwaitingScan or
Connected entries, and it is not monotone elsewhere. After three transient
closes the counter is 3 (below maxAttempts), yet a 405 close drops it to
1 while the resulting status is disconnected. -/
theorem c4_counterexample :
    Reachable c4State ∧ c4State.reconnectAttempts = 3
  ∧ c4State.reconnectAttempts < MAX_RECONNECT_ATTEMPTS
  ∧ (connStep c4State (.closeEvt (some 405) true)).1.reconnectAttempts <
      c4State.reconnectAttempts
  ∧ (connStep c4State (.closeEvt (some 405) true)).1.connectionStatus =
      ConnStatus.disconnected :=
  ⟨⟨false, false,
    [.connect true .ok, .closeEvt (some 500) true,
     .connect true .ok, .closeEvt (some 500) true,
     .connect true .ok, .closeEvt (some 500) true], rfl⟩,
   rfl, by decide, by decide, rfl⟩

/-- C4 (amended): the counter resets to 0 on AwaitingScan entry (successful
qr render), Connected entry (open), a 401 close, and the manual logout,
reconnect and clear-session handlers; a 405 close resets it and the retry
increment then leaves it at 1; any other close and the connect throw path
increment it by 1; once it reaches maxAttempts (5) the next accepted
connect clears the session (forced invalidation when the durable delete
succeeds) and resets the counter to 0 before proceeding. -/
theorem c4_amended (s : ServerState) (ro rok : Bool) (code : Option Nat)
    (u : Option String) (h : s.hasSock = true) (hn : s.isConnecting = false) :
    (s.reconnectAttempts < MAX_RECONNECT_ATTEMPTS →
        (connStep s (.connect ro .ok)).1.reconnectAttempts = s.reconnectAttempts)
  ∧ (s.reconnectAttempts < MAX_RECONNECT_ATTEMPTS →
        (connStep s (.connect ro .threw)).1.reconnectAttempts =
          s.reconnectAttempts + 1)
  ∧ (MAX_RECONNECT_ATTEMPTS ≤ s.reconnectAttempts →
        (connStep s (.connect ro .ok)).1.reconnectAttempts = 0
          ∧ (ro = true → (connStep s (.connect ro .ok)).1.localCreds = false
              ∧ (connStep s (.connect ro .ok)).1.durableCreds = false))
  ∧ (rok = true →
        (connStep s (.qrEvt rok)).1.reconnectAttempts = 0
          ∧ (connStep s (.qrEvt rok)).1.connectionStatus = ConnStatus.waiting_qr)
  ∧ ((connStep s (.openEvt u)).1.reconnectAttempts = 0
        ∧ (connStep s (.openEvt u)).1.connectionStatus = ConnStatus.connected)
  ∧ (code ≠ some 401 → code ≠ some 405 →
        (connStep s (.closeEvt code ro)).1.reconnectAttempts =
          s.reconnectAttempts + 1)
  ∧ ((connStep s (.closeEvt (some 405) ro)).1.reconnectAttempts = 1)
  ∧ ((connStep s (.closeEvt (some 401) ro)).1.reconnectAttempts = 0)
  ∧ ((connStep s (.logoutReq false ro)).1.reconnectAttempts = 0)
  ∧ ((connStep s (.reconnectReq ro)).1.reconnectAttempts = 0)
  ∧ ((connStep s (.clearSessionReq ro)).1.reconnectAttempts = 0) := by
  refine ⟨?_, ?_, ?_, ?_, ?_, ?_, ?_, ?_, ?_, ?_, ?_⟩
  · intro hlt
    have hm : ¬ MAX_RECONNECT_ATTEMPTS ≤ s.reconnectAttempts := Nat.not_le.mpr hlt
    simp [connStep, hn, hm]
  · intro hlt
    have hm : ¬ MAX_RECONNECT_ATTEMPTS ≤ s.reconnectAttempts := Nat.not_le.mpr hlt
    simp [connStep, hn, hm]
  · intro hm
    refine ⟨?_, ?_⟩
    · simp [connStep, clearSessionFn, hn, hm]
    · intro hro
      subst hro
      simp [connStep, clearSessionFn, hn, hm]
  · intro hrok
    subst hrok
    simp [connStep, h]
  · simp [connStep, h]
  · intro h401 h405
    have h1 : ¬(code = some 405 ∨ code = some 401) := by
      rintro (hc | hc)
      · exact h405 hc
      · exact h401 hc
    simp [connStep, loggedOutCode, h, h1, h401, h405]
  · simp [connStep, clearSessionFn, loggedOutCode, h]
  · simp [connStep, clearSessionFn, loggedOutCode, h]
  · simp [connStep, clearSessionFn]
  · simp [connStep, clearSessionFn]
  · simp [connStep, clearSessionFn]

/-- C4 amended witness at a concrete state: an ordinary transient close
increments the counter by one. -/
theorem c4_amended_witness :
    (connStep exampleSock (.closeEvt (some 503) true)).1.reconnectAttempts =
      exampleSock.reconnectAttempts + 1 :=
  ((c4_amended exampleSock true true (some 503) none rfl rfl).2.2.2.2.2.1)
    (by decide) (by decide)

/-- C5 counterexample: the hybrid loader performs a durable-store read even
when the local cache is already populated (the read result is then
discarded), refuting the no-read part of the claim at an explicit
populated input. -/
theorem c5_counterexample :
    (useHybridAuthState (some [("creds", "localVersion")])
        (some [("creds", "durableVersion")])).durableReads ≠ 0
  ∧ (useHybridAuthState (some [("creds", "localVersion")])
        (some [("creds", "durableVersion")])).localCache =
      some [("creds", "localVersion")] :=
  ⟨by decide, rfl⟩

/-- C5 (amended): with an already-populated local cache the hybrid loader
leaves the cache unchanged, but it still performs exactly one
durable-store read, whose result is discarded. -/
theorem c5_amended (lc : CredSet) (durable : Option CredSet) :
    (useHybridAuthState (some lc) durable).localCache = some lc
  ∧ (useHybridAuthState (some lc) durable).durableReads = 1 := by
  cases durable <;> simp [useHybridAuthState]

/-- C6 counterexample: logout completes (sock.logout does not throw) from a
start state holding both credential copies, the durable delete fails
(best-effort), and the durable copy is still present afterwards. -/
theorem c6_counterexample :
    Reachable (initState true true)
  ∧ (connStep (initState true true) (.logoutReq false false)).1.connectionStatus =
      ConnStatus.disconnected
  ∧ (connStep (initState true true) (.logoutReq false false)).1.localCreds = false
  ∧ (connStep (initState true true) (.logoutReq false false)).1.durableCreds = true :=
  ⟨⟨true, true, [], rfl⟩, rfl, rfl, rfl⟩

/-- C6 (amended): a completed logout always leaves the phase Disconnected
with the identity cleared, the local credential copy deleted and the
attempt counter at 0, schedules no retry, and deletes the durable copy
whenever the durable-store delete succeeds (the delete is only
best-effort). -/
theorem c6_amended (s : ServerState) (ro : Bool) :
    ((connStep s (.logoutReq false ro)).1.connectionStatus =
        ConnStatus.disconnected)
  ∧ ((connStep s (.logoutReq false ro)).1.localCreds = false)
  ∧ ((connStep s (.logoutReq false ro)).1.connectedPhone = none)
  ∧ ((connStep s (.logoutReq false ro)).1.isConnecting = false)
  ∧ ((connStep s (.logoutReq false ro)).1.reconnectAttempts = 0)
  ∧ (ro = true → (connStep s (.logoutReq false ro)).1.durableCreds = false)
  ∧ ((connStep s (.logoutReq false ro)).2 = none) := by
  refine ⟨?_, ?_, ?_, ?_, ?_, ?_, ?_⟩ <;>
    first
      | (intro hro; subst hro; simp [connStep, clearSessionFn])
      | simp [connStep, clearSessionFn]

/-- C6 amended witness: when the durable delete succeeds the durable copy is
gone after logout. -/
theorem c6_amended_witness :
    (connStep (initState true true) (.logoutReq false true)).1.durableCreds =
      false :=
  (c6_amended (initState true true) true).2.2.2.2.2.1 rfl

/-- C7: sendMessage fails with the WhatsApp-not-connected error whenever
there is no socket or the status is not connected, propagates a library
error unchanged when connected, returns the normalized JID on success,
and never mutates the state on any path. -/
theorem c7_send_gating (s : ServerState) (phone : String)
    (lib : Except String Unit) :
    ((s.hasSock = false ∨ s.connectionStatus ≠ ConnStatus.connected) →
        sendMessage s phone lib = (s, Except.error "WhatsApp not connected"))
  ∧ (s.hasSock = true → s.connectionStatus = ConnStatus.connected →
        (∀ e, sendMessage s phone (Except.error e) = (s, Except.error e))
          ∧ sendMessage s phone (Except.ok ()) =
              (s, Except.ok (normalizeJid phone)))
  ∧ (sendMessage s phone lib).1 = s := by
  refine ⟨?_, ?_, ?_⟩
  · intro hcond
    simp [sendMessage, hcond]
  · intro h1 h2
    refine ⟨?_, ?_⟩
    · intro e
      simp [sendMessage, h1, h2]
    · simp [sendMessage, h1, h2]
  · by_cases hcond : s.hasSock = false ∨ s.connectionStatus ≠ ConnStatus.connected
    · simp [sendMessage, hcond]
    · cases lib <;> simp [sendMessage, hcond]

/-- C7 witness at a concrete disconnected state. -/
theorem c7_send_gating_witness :
    sendMessage (initState false false) "3001234567" (Except.ok ()) =
      (initState false false, Except.error "WhatsApp not connected") :=
  (c7_send_gating (initState false false) "3001234567" (Except.ok ())).1
    (Or.inl rfl)

/-- C8: whenever a step of the close handler or of the connect throw path
schedules a retry, the scheduled delay equals
min of 5000 times the post-increment attempt counter and 30000,
the same formula on both paths. -/
theorem c8_retry_delay (s : ServerState) (ro : Bool) (code : Option Nat)
    (oc : COutcome) :
    (∀ d, (connStep s (.closeEvt code ro)).2 = some d →
        d = min (5000 * (connStep s (.closeEvt code ro)).1.reconnectAttempts)
              30000)
  ∧ (∀ d, (connStep s (.connect ro oc)).2 = some d →
        d = min (5000 * (connStep s (.connect ro oc)).1.reconnectAttempts)
              30000) := by
  constructor
  · intro d hd
    by_cases h : s.hasSock = true
    · by_cases h401 : code = some 401 <;>
        by_cases h405 : code = some 405 <;>
        simp [connStep, clearSessionFn, loggedOutCode, retryDelay,
              h, h401, h405] at hd ⊢ <;>
        omega
    · simp [connStep, h] at hd
  · intro d hd
    by_cases hi : s.isConnecting = true
    · simp [connStep, hi] at hd
    · by_cases hm : MAX_RECONNECT_ATTEMPTS ≤ s.reconnectAttempts <;>
        cases oc <;>
        simp [connStep, clearSessionFn, retryDelay, hi, hm] at hd ⊢ <;>
        omega

/-- C8 witness: a transient close at a fresh live-socket state schedules a
retry after 5000 ms, matching the formula with post-increment counter 1. -/
theorem c8_retry_delay_witness :
    (5000 : Nat) =
      min (5000 * (connStep exampleSock (.closeEvt (some 500) true)).1.reconnectAttempts)
        30000 :=
  (c8_retry_delay exampleSock true (some 500) COutcome.ok).1 5000 rfl

/-- C9: the batch handler is failure-isolating by construction: for any
batch split around one message with an arbitrary per-message environment
(including a failed download and a throwing processor call), the messages
after it are still processed, each with its own outcome, and the outcome
list covers the whole batch. -/
theorem c9_batch_isolation (pre post : List (InMsg × MsgEnv)) (m : InMsg)
    (env : MsgEnv) :
    processBatch "notify" (pre ++ (m, env) :: post) =
      processBatch "notify" pre ++
        handleOne m env :: processBatch "notify" post
  ∧ (processBatch "notify" (pre ++ (m, env) :: post)).length =
      pre.length + 1 + post.length := by
  refine ⟨?_, ?_⟩
  · simp [processBatch]
  · simp [processBatch]
    omega

/-- C10: a non-self, non-group message whose content is not text and not a
recognized media type is silently dropped (the processor is never called
and no reply is attempted), and so is any message whose extracted sender
address is empty. -/
theorem c10_drop_unrecognized (m : InMsg) (env : MsgEnv)
    (h : m.content = MsgContent.otherContent ∨ extractPhone m.remoteJid = "") :
    handleOne m env = { forwarded := none, replyTo := none } := by
  by_cases hfm : m.fromMe = true
  · simp [handleOne, hfm]
  · by_cases hg : isGroupJid m.remoteJid = true
    · simp [handleOne, hfm, hg]
    · rcases h with h | h
      · simp [handleOne, hfm, hg, h, classifyContent]
      · simp [handleOne, hfm, hg, h]

/-- C10 witness: a concrete sticker-like message from a direct chat is
dropped even though the processor would have produced a reply. -/
theorem c10_drop_unrecognized_witness :
    handleOne
      { fromMe := false, remoteJid := some "3001112233@s.whatsapp.net",
        pushName := some "Ana", content := MsgContent.otherContent }
      { download := none, processor := some (true, some "hola") } =
      { forwarded := none, replyTo := none } :=
  c10_drop_unrecognized _ _ (Or.inl rfl)

end WhatsappBridge
